import Mathlib

/-!
Shallow embedding of `src/frontegg-oauth-client.ts` from
`@lokalise/frontegg-oauth-client`, a browser-side OAuth/OIDC
authorization-code-with-PKCE client, together with theorems settling the
specification claims about it.

Modelling conventions:
* JavaScript numbers that hold epoch-milliseconds / seconds are modelled as
  `Int` (they are integral in all code paths).
* `fetch` responses are modelled by the `HttpResponse` structure; a rejecting
  `response.text()` / `response.json()` is modelled by `none` in the
  corresponding field.  The network itself is an oracle: each operation takes
  the response the provider would give for its request.
* External collaborators that the repository treats as primitives
  (SHA-256, `Math.random`-based string generation, `localStorage`) are
  parameters of the corresponding functions.
* JavaScript promise identity (needed for the single-flight claims) is
  modelled by a per-instance counter: `userDataPromise : Option Nat` holds
  the id of the pending operation, mirroring the nullable promise slot.
-/

deriving instance DecidableEq for Except

namespace Frontegg

mutual

/-- JSON values, as produced by `response.json()`.  Arrays and objects carry
their own spine types (instead of `List`) so that all recursions below are
plain structural recursions that the kernel can evaluate. -/
inductive JsonValue where
  | null : JsonValue
  | bool (b : Bool) : JsonValue
  | num (n : Int) : JsonValue
  | str (s : String) : JsonValue
  | arr (xs : JsonElems) : JsonValue
  | obj (fields : JsonFields) : JsonValue
deriving Repr, DecidableEq

/-- Spine of a JSON array. -/
inductive JsonElems where
  | nil : JsonElems
  | cons (head : JsonValue) (tail : JsonElems) : JsonElems
deriving Repr, DecidableEq

/-- Spine of a JSON object: ordered key/value fields. -/
inductive JsonFields where
  | nil : JsonFields
  | cons (key : String) (value : JsonValue) (tail : JsonFields) : JsonFields
deriving Repr, DecidableEq

end

/-- Convenience constructor for flat JSON objects from a field list. -/
def jsonFieldsOfList : List (String × JsonValue) → JsonFields
  | [] => .nil
  | (k, v) :: rest => .cons k v (jsonFieldsOfList rest)

/-- Convenience constructor: JSON object from a field list. -/
def jsonObj (l : List (String × JsonValue)) : JsonValue :=
  .obj (jsonFieldsOfList l)

/-- Two hex digit characters (uppercase) for a byte, used by percent-encoding. -/
def hexDigitUpper (n : Nat) : Char :=
  if n < 10 then Char.ofNat (48 + n) else Char.ofNat (55 + n)

/-- Two hex digit characters (lowercase), used by JSON unicode escapes. -/
def hexDigitLower (n : Nat) : Char :=
  if n < 10 then Char.ofNat (48 + n) else Char.ofNat (87 + n)

/-- Escape of one character inside a JSON string literal, as
`JSON.stringify` produces it. -/
def jsonEscapeChar (c : Char) : String :=
  if c = '"' then "\\\""
  else if c = '\\' then "\\\\"
  else if c = '\n' then "\\n"
  else if c = '\r' then "\\r"
  else if c = '\t' then "\\t"
  else if c.toNat < 32 then
    "\\u00" ++ String.singleton (hexDigitLower (c.toNat / 16))
      ++ String.singleton (hexDigitLower (c.toNat % 16))
  else String.singleton c

/-- A JSON string literal with quotes, as `JSON.stringify` produces it. -/
def jsonQuote (s : String) : String :=
  "\"" ++ String.join (s.data.map jsonEscapeChar) ++ "\""

mutual

/-- `JSON.stringify(json)`. -/
def jsonStringify : JsonValue → String
  | .null => "null"
  | .bool b => if b then "true" else "false"
  | .num n => toString n
  | .str s => jsonQuote s
  | .arr xs => "[" ++ jsonStringifyElems xs ++ "]"
  | .obj fields => "\x7b" ++ jsonStringifyFields fields ++ "\x7d"

/-- Comma-separated serialization of array elements. -/
def jsonStringifyElems : JsonElems → String
  | .nil => ""
  | .cons x .nil => jsonStringify x
  | .cons x (.cons y t) => jsonStringify x ++ "," ++ jsonStringifyElems (.cons y t)

/-- Comma-separated serialization of object fields. -/
def jsonStringifyFields : JsonFields → String
  | .nil => ""
  | .cons k v .nil => jsonQuote k ++ ":" ++ jsonStringify v
  | .cons k v (.cons k2 v2 t) =>
      jsonQuote k ++ ":" ++ jsonStringify v ++ "," ++ jsonStringifyFields (.cons k2 v2 t)

end

/-- Does `sub` occur as a contiguous run inside the second list? -/
def containsSubAux (sub : List Char) : List Char → Bool
  | [] => sub.isEmpty
  | c :: rest => List.isPrefixOf sub (c :: rest) || containsSubAux sub rest

/-- `String.prototype.includes`: substring containment. -/
def containsSubstr (s sub : String) : Bool :=
  containsSubAux sub.data s.data

/-- JavaScript truthiness of a JSON value (`null`, `false`, `0` and the empty
string are falsy; every array or object is truthy). -/
def jsFalsy : JsonValue → Bool
  | .null => true
  | .bool b => !b
  | .num n => n = 0
  | .str s => s = ""
  | .arr _ => false
  | .obj _ => false

/-- JavaScript truthiness of a nullable string (`null` and `""` are falsy),
used for the `if (this.refreshToken)`-style guards. -/
def strTruthy : Option String → Bool
  | none => false
  | some s => s ≠ ""

/-- UTF-8 bytes of a unicode code point. -/
def utf8Bytes (n : Nat) : List Nat :=
  if n < 128 then [n]
  else if n < 2048 then [192 + n / 64, 128 + n % 64]
  else if n < 65536 then [224 + n / 4096, 128 + (n / 64) % 64, 128 + n % 64]
  else [240 + n / 262144, 128 + (n / 4096) % 64, 128 + (n / 64) % 64, 128 + n % 64]

/-- Percent-encoding of a byte: `%XX` with uppercase hex, as the WHATWG
`application/x-www-form-urlencoded` serializer emits. -/
def percentByte (b : Nat) : String :=
  "%" ++ String.singleton (hexDigitUpper (b / 16)) ++ String.singleton (hexDigitUpper (b % 16))

/-- One character under the `application/x-www-form-urlencoded` serializer
used by `URLSearchParams`: space becomes `+`, ASCII alphanumerics and
`*`, `-`, `.`, `_` stay, everything else is percent-encoded per UTF-8 byte. -/
def formEncodeChar (c : Char) : String :=
  if c = ' ' then "+"
  else if c.isAlphanum || c = '*' || c = '-' || c = '.' || c = '_' then String.singleton c
  else String.join ((utf8Bytes c.toNat).map percentByte)

/-- `application/x-www-form-urlencoded` serialization of a string. -/
def formEncode (s : String) : String :=
  String.join (s.data.map formEncodeChar)

/-- WHATWG `URL` object, restricted to what the client constructs: a base
serialization (scheme/host/path, no query or fragment) plus the
`searchParams` list.  `urlOfString` models `new URL(s)` for inputs that are
already-normalized absolute URLs without query or fragment, which is the
shape of every URL the client builds from its configured `baseUrl`. -/
structure Url where
  base : String
  params : List (String × String)
deriving Repr, DecidableEq

/-- `new URL(s)` (for normalized absolute URLs without query/fragment). -/
def urlOfString (s : String) : Url :=
  { base := s, params := [] }

/-- `URLSearchParams.set` on the parameter list: replace the value of the
first pair with the given name, drop later pairs with that name, or append
when absent. -/
def setParamList : List (String × String) → String → String → List (String × String)
  | [], n, v => [(n, v)]
  | (k, w) :: rest, n, v =>
    if k = n then (n, v) :: rest.filter (fun p => p.1 ≠ n)
    else (k, w) :: setParamList rest n v

/-- `url.searchParams.set(name, value)`. -/
def Url.setParam (u : Url) (n v : String) : Url :=
  { u with params := setParamList u.params n v }

/-- The query string as the `URLSearchParams` serializer renders it. -/
def serializeParams (ps : List (String × String)) : String :=
  String.intercalate "&" (ps.map (fun p => formEncode p.1 ++ "=" ++ formEncode p.2))

/-- `url.toString()` for the URLs the client builds (non-empty query iff
parameters were set). -/
def Url.render (u : Url) : String :=
  if u.params.isEmpty then u.base else u.base ++ "?" ++ serializeParams u.params

/-- `FronteggUserData` from the source.  `profilePictureUrl` has TS type
`string | null | undefined`: `none` is `undefined`, `some none` is `null`. -/
structure FronteggUserData where
  externalUserId : String
  accessToken : String
  name : String
  email : String
  profilePictureUrl : Option (Option String)
  externalWorkspaceId : String
deriving Repr, DecidableEq

/-- `GetFronteggTokenResponse`, the shape enforced by
`GET_FRONTEGG_TOKEN_RESPONSE_SCHEMA`. -/
structure GetFronteggTokenResponse where
  token_type : String
  access_token : String
  id_token : String
  refresh_token : String
  expires_in : Int
deriving Repr, DecidableEq

/-- First field with the given key in a JSON object spine. -/
def jsonLookup : JsonFields → String → Option JsonValue
  | .nil, _ => none
  | .cons k v rest, key => if k = key then some v else jsonLookup rest key

/-- `z.string()` applied to a looked-up field. -/
def zodString : Option JsonValue → Option String
  | some (.str s) => some s
  | _ => none

/-- `z.number()` applied to a looked-up field. -/
def zodNumber : Option JsonValue → Option Int
  | some (.num n) => some n
  | _ => none

/-- `GET_FRONTEGG_TOKEN_RESPONSE_SCHEMA.parse`: succeeds exactly when the
value is an object whose five declared fields have the declared types
(extra fields are ignored, as with a non-strict `z.object`). -/
def parseTokenResponse : JsonValue → Option GetFronteggTokenResponse
  | .obj fields => do
    let token_type ← zodString (jsonLookup fields ("token_type"))
    let access_token ← zodString (jsonLookup fields ("access_token"))
    let id_token ← zodString (jsonLookup fields ("id_token"))
    let refresh_token ← zodString (jsonLookup fields ("refresh_token"))
    let expires_in ← zodNumber (jsonLookup fields ("expires_in"))
    pure { token_type, access_token, id_token, refresh_token, expires_in }
  | _ => none

/-- `GetFronteggUserDataResponse`, the shape enforced by
`GET_FRONTEGG_USER_DATA_RESPONSE_SCHEMA`. -/
structure GetFronteggUserDataResponse where
  id : String
  email : String
  name : String
  profilePictureUrl : Option (Option String)
  tenantId : String
deriving Repr, DecidableEq

/-- `z.string().nullable().optional()` applied to a looked-up field. -/
def zodNullableOptionalString : Option JsonValue → Option (Option (Option String))
  | none => some none
  | some .null => some (some none)
  | some (.str s) => some (some (some s))
  | some _ => none

/-- `GET_FRONTEGG_USER_DATA_RESPONSE_SCHEMA.parse`. -/
def parseUserDataResponse : JsonValue → Option GetFronteggUserDataResponse
  | .obj fields => do
    let id ← zodString (jsonLookup fields ("id"))
    let email ← zodString (jsonLookup fields ("email"))
    let name ← zodString (jsonLookup fields ("name"))
    let profilePictureUrl ← zodNullableOptionalString (jsonLookup fields ("profilePictureUrl"))
    let tenantId ← zodString (jsonLookup fields ("tenantId"))
    pure { id, email, name, profilePictureUrl, tenantId }
  | _ => none

/-- The payload of a `FronteggError` (class `FronteggError` in the source):
text, HTTP status, request URL, trace id, and a body.  The body is a JSON
value; plain message strings are embedded with `.str`. -/
structure FronteggErrorData where
  text : String
  status : Nat
  url : String
  fronteggTraceId : String
  body : JsonValue
deriving Repr, DecidableEq

/-- Errors an operation can surface: a structured `FronteggError`, a
rejected `response.json()` (a platform `TypeError`), or a `ZodError` from a
bare `schema.parse` call.  The latter two carry no data the client
inspects. -/
inductive ClientError where
  | frontegg (e : FronteggErrorData) : ClientError
  | jsonDecodeFailure : ClientError
  | zodFailure : ClientError
deriving Repr, DecidableEq

/-- A provider HTTP response as the oracle delivers it.  `textBody = none`
models a rejecting `response.text()`, `jsonBody = none` a rejecting
`response.json()`; `fronteggTraceId` is the `frontegg-trace-id` header. -/
structure HttpResponse where
  status : Nat
  textBody : Option String
  jsonBody : Option JsonValue
  fronteggTraceId : Option String
deriving Repr, DecidableEq

/-- `Response.ok` of the fetch API: status in the range 200–299. -/
def HttpResponse.ok (r : HttpResponse) : Bool :=
  decide (200 ≤ r.status) && decide (r.status < 300)

/-- The fallback message used by `fetchWithAssert`. -/
def defaultMessage : String := "Error while fetching Frontegg endpoint."

/-- `fetchWithAssert(url, options)` given the response the transport
produced: passes 2xx responses through, otherwise throws a `FronteggError`
whose `text` is the response text (with the default message when reading
fails or yields a falsy string) and whose `body` is the JSON body (with the
default message when parsing fails or yields a falsy value). -/
def fetchWithAssert (url : String) (r : HttpResponse) : Except FronteggErrorData HttpResponse :=
  if r.ok then .ok r
  else
    let text := match r.textBody with
      | none => defaultMessage
      | some t => if t = "" then defaultMessage else t
    let body : JsonValue := match r.jsonBody with
      | none => .str defaultMessage
      | some j => if jsFalsy j then .str defaultMessage else j
    .error { text, status := r.status, url,
             fronteggTraceId := r.fronteggTraceId.getD ("undefined"), body }

/-- `calculateTokenExpirationTime(expiresInSeconds)`, with `Date.now()`
passed explicitly. -/
def calculateTokenExpirationTime (now expiresInSeconds : Int) : Int :=
  now + expiresInSeconds * 1000

/-- `isTokenExpired(tokenExpirationTime)`, with `Date.now()` passed
explicitly.  The JavaScript guard `!tokenExpirationTime` is truthy for both
`null` and `0`, hence the explicit `0` case. -/
def isTokenExpired (tokenExpirationTime : Option Int) (now : Int) : Bool :=
  match tokenExpirationTime with
  | none => true
  | some t => if t = 0 then true else decide (t - 60 * 60 * 1000 < now)

/-- The base64 alphabet used by `btoa`. -/
def base64Alphabet : List Char :=
  "ABCDEFGHIJKLMNOPQRSTUVWXYZabcdefghijklmnopqrstuvwxyz0123456789+/".data

/-- Character of the base64 alphabet at the given 6-bit index. -/
def base64Char (n : Nat) : Char :=
  base64Alphabet.getD n 'A'

/-- `btoa(String.fromCharCode(...bytes))`: standard base64 with `=`
padding. -/
def base64Encode : List Nat → String
  | [] => ""
  | [b1] =>
      String.singleton (base64Char (b1 / 4)) ++ String.singleton (base64Char (b1 % 4 * 16))
        ++ "=="
  | [b1, b2] =>
      String.singleton (base64Char (b1 / 4))
        ++ String.singleton (base64Char (b1 % 4 * 16 + b2 / 16))
        ++ String.singleton (base64Char (b2 % 16 * 4)) ++ "="
  | b1 :: b2 :: b3 :: rest =>
      String.singleton (base64Char (b1 / 4))
        ++ String.singleton (base64Char (b1 % 4 * 16 + b2 / 16))
        ++ String.singleton (base64Char (b2 % 16 * 4 + b3 / 64))
        ++ String.singleton (base64Char (b3 % 64))
        ++ base64Encode rest

/-- The code-challenge encoding from `getOAuthLoginUrl`: base64 of the
digest bytes, then `=` stripped, `+` replaced by `-`, `/` by `_`. -/
def base64UrlOfBytes (bytes : List Nat) : String :=
  (((base64Encode bytes).replace ("=") ("")).replace ("+") ("-")).replace ("/") ("_")

/-- The three private token fields of `FronteggOAuthClient`. -/
structure TokenState where
  accessToken : Option String
  refreshToken : Option String
  tokenExpirationTime : Option Int
deriving Repr, DecidableEq

/-- The constructor configuration object.  Optional fields are `Option`;
the client applies JavaScript truthiness to `refreshToken` and
`tokenExpirationTime` (there is no separate `accessToken` field — the
initial access token can only come from `userData`). -/
structure ClientConfig where
  baseUrl : String
  clientId : String
  redirectUri : String
  logoutRedirectUri : String
  userData : Option FronteggUserData
  refreshToken : Option String
  tokenExpirationTime : Option Int
deriving Repr, DecidableEq

/-- The mutable per-instance state of `FronteggOAuthClient`.
`userDataPromise` holds the id of the pending user-data operation (the
nullable promise slot); `nextPromiseId` is the modelling counter giving
fresh promise identities. -/
structure ClientState where
  userData : Option FronteggUserData
  tokens : TokenState
  userDataPromise : Option Nat
  nextPromiseId : Nat
deriving Repr, DecidableEq

/-- The `FronteggOAuthClient` constructor: copies `userData` (and its
`accessToken`) when provided, and copies `refreshToken` /
`tokenExpirationTime` only when truthy (so `""` and `0` leave the fields
`null`). -/
def FronteggOAuthClient.init (config : ClientConfig) : ClientState :=
  { userData := config.userData
    tokens :=
      { accessToken := config.userData.map (fun u => u.accessToken)
        refreshToken := match config.refreshToken with
          | some r => if r = "" then none else some r
          | none => none
        tokenExpirationTime := match config.tokenExpirationTime with
          | some t => if t = 0 then none else some t
          | none => none }
    userDataPromise := none
    nextPromiseId := 0 }

/-- The network requests an operation performs, in order. -/
inductive NetCall where
  | silentCookie : NetCall
  | codeExchange : NetCall
  | refreshExchange : NetCall
  | profileFetch : NetCall
deriving Repr, DecidableEq

/-- The guard computed inside `fetchAccessTokenByCookie`'s catch block:
does the serialized response contain any of the token field names
`access_token`, `id_token`, `refresh_token`?  (The source computes
`includeResponseBody` as its negation.) -/
def tokenKeyLeak (json : JsonValue) : Bool :=
  ["access_token", "id_token", "refresh_token"].any
    (fun key => containsSubstr (jsonStringify json) key)

/-- `fetchAccessTokenByCookie`, given the provider's response.  On a 2xx
response whose body parses against the token schema it stores all three
token fields and returns the access token; on a 2xx response that fails
schema validation it throws a status-500 `FronteggError` whose body embeds
the raw response only when its serialization contains none of
`access_token`, `id_token`, `refresh_token` (else a redaction notice), plus
a marker for the `ZodError` object; non-2xx responses throw via
`fetchWithAssert`.  The token state is returned unchanged on every failure
path. -/
def fetchAccessTokenByCookie (baseUrl : String) (ts : TokenState) (r : HttpResponse)
    (now : Int) : Except ClientError String × TokenState :=
  match fetchWithAssert (baseUrl ++ "/frontegg/oauth/authorize/silent") r with
  | .error e => (.error (.frontegg e), ts)
  | .ok response =>
    match response.jsonBody with
    | none => (.error .jsonDecodeFailure, ts)
    | some json =>
      match parseTokenResponse json with
      | some data =>
          (.ok data.access_token,
           { accessToken := some data.access_token
             refreshToken := some data.refresh_token
             tokenExpirationTime := some (calculateTokenExpirationTime now data.expires_in) })
      | none =>
        let includeResponseBody := !(tokenKeyLeak json)
        (.error (.frontegg
          { text := "Error while parsing Frontegg response."
            status := 500
            url := baseUrl ++ "/frontegg/oauth/authorize/silent"
            fronteggTraceId := response.fronteggTraceId.getD ("undefined")
            body := jsonObj
              [("response",
                if includeResponseBody then json
                else .str "Response body contains sensitive information."),
               ("error", .str "ZodError")] }), ts)

/-- `fetchAccessTokenByOAuthCode(oauthCode)`, given the provider's
response (the request body — code, verifier, grant type — does not affect
the state transition).  A schema failure here is an uncaught `ZodError`. -/
def fetchAccessTokenByOAuthCode (baseUrl : String) (ts : TokenState) (r : HttpResponse)
    (now : Int) : Except ClientError String × TokenState :=
  match fetchWithAssert (baseUrl ++ "/frontegg/oauth/token") r with
  | .error e => (.error (.frontegg e), ts)
  | .ok response =>
    match response.jsonBody with
    | none => (.error .jsonDecodeFailure, ts)
    | some json =>
      match parseTokenResponse json with
      | none => (.error .zodFailure, ts)
      | some data =>
          (.ok data.access_token,
           { accessToken := some data.access_token
             refreshToken := some data.refresh_token
             tokenExpirationTime := some (calculateTokenExpirationTime now data.expires_in) })

/-- `fetchAccessTokenByOAuthRefreshToken(refreshToken)`, given the
provider's response; same endpoint and update contract as the code
exchange. -/
def fetchAccessTokenByOAuthRefreshToken (baseUrl : String) (ts : TokenState)
    (r : HttpResponse) (now : Int) : Except ClientError String × TokenState :=
  match fetchWithAssert (baseUrl ++ "/frontegg/oauth/token") r with
  | .error e => (.error (.frontegg e), ts)
  | .ok response =>
    match response.jsonBody with
    | none => (.error .jsonDecodeFailure, ts)
    | some json =>
      match parseTokenResponse json with
      | none => (.error .zodFailure, ts)
      | some data =>
          (.ok data.access_token,
           { accessToken := some data.access_token
             refreshToken := some data.refresh_token
             tokenExpirationTime := some (calculateTokenExpirationTime now data.expires_in) })

/-- `fetchUserData(userAccessToken)`, given the provider's response to the
profile request: builds the `FronteggUserData` from the validated profile
body, stamping in the access token that was used.  It touches no client
state. -/
def fetchUserData (baseUrl : String) (userAccessToken : String) (r : HttpResponse) :
    Except ClientError FronteggUserData :=
  match fetchWithAssert (baseUrl ++ "/frontegg/identity/resources/users/v2/me") r with
  | .error e => .error (.frontegg e)
  | .ok response =>
    match response.jsonBody with
    | none => .error .jsonDecodeFailure
    | some json =>
      match parseUserDataResponse json with
      | none => .error .zodFailure
      | some data =>
          .ok { externalUserId := data.id
                accessToken := userAccessToken
                email := data.email
                name := data.name
                profilePictureUrl := data.profilePictureUrl
                externalWorkspaceId := data.tenantId }

/-- The responses the provider would give to each possible request of one
`getUserData` operation. -/
structure Oracle where
  silentResponse : HttpResponse
  refreshResponse : HttpResponse
  profileResponse : HttpResponse
deriving Repr, DecidableEq

/-- `getAccessToken({forceRefresh})`: no cached (truthy) access token →
silent-cookie exchange; truthy refresh token and (`forceRefresh` or
expired) → refresh exchange; otherwise return the cached token with no
network call.  Also returns the token state after the step and the list of
network calls made. -/
def getAccessToken (baseUrl : String) (ts : TokenState) (forceRefresh : Bool)
    (o : Oracle) (now : Int) : Except ClientError String × TokenState × List NetCall :=
  if !(strTruthy ts.accessToken) then
    let (res, ts2) := fetchAccessTokenByCookie baseUrl ts o.silentResponse now
    (res, ts2, [.silentCookie])
  else if strTruthy ts.refreshToken
      && (forceRefresh || isTokenExpired ts.tokenExpirationTime now) then
    let (res, ts2) := fetchAccessTokenByOAuthRefreshToken baseUrl ts o.refreshResponse now
    (res, ts2, [.refreshExchange])
  else
    (.ok (ts.accessToken.getD ("")), ts, [])

/-- The synchronous guard at the top of `getUserData`: the cached profile is
returned immediately exactly when it exists, the token is not expired, and
`forceRefresh` is false. -/
def cachedReturn (st : ClientState) (forceRefresh : Bool) (now : Int) :
    Option FronteggUserData :=
  match st.userData with
  | some u =>
      if !(isTokenExpired st.tokens.tokenExpirationTime now) && !forceRefresh then some u
      else none
  | none => none

/-- What one `getUserData` call does synchronously, before any suspension
point: return the cached profile, join the already-pending operation, or
install a fresh pending operation in the promise slot. -/
inductive GetUserDataResult where
  | cached (u : FronteggUserData) : GetUserDataResult
  | pending (p : Nat) : GetUserDataResult
deriving Repr, DecidableEq

/-- The synchronous prefix of `getUserData({forceRefresh})`: lines 241–262
of the source up to returning `this.userDataPromise`.  Installing the
promise chain happens before any suspension point, so this step is atomic
under the event-loop model. -/
def getUserDataCall (st : ClientState) (forceRefresh : Bool) (now : Int) :
    GetUserDataResult × ClientState :=
  match cachedReturn st forceRefresh now with
  | some u => (.cached u, st)
  | none =>
    match st.userDataPromise with
    | some p => (.pending p, st)
    | none =>
        (.pending st.nextPromiseId,
         { st with userDataPromise := some st.nextPromiseId
                   nextPromiseId := st.nextPromiseId + 1 })

/-- The body of the pending `getUserData` operation together with its
settlement handlers: resolve the access token, fetch the profile with it,
then either store the profile and clear the slot (success) or clear the
slot and propagate the error (failure).  Between the suspension points of
this body no other code mutates the client state (joining callers and
cached-return callers leave it untouched), so running it as one function is
faithful to the event-loop interleaving. -/
def runUserDataPromise (baseUrl : String) (st : ClientState) (forceRefresh : Bool)
    (o : Oracle) (now : Int) :
    Except ClientError FronteggUserData × ClientState × List NetCall :=
  let (tokenResult, ts2, calls) := getAccessToken baseUrl st.tokens forceRefresh o now
  match tokenResult with
  | .error e => (.error e, { st with tokens := ts2, userDataPromise := none }, calls)
  | .ok accessToken =>
    match fetchUserData baseUrl accessToken o.profileResponse with
    | .error e =>
        (.error e, { st with tokens := ts2, userDataPromise := none },
         calls ++ [.profileFetch])
    | .ok u =>
        (.ok u,
         { st with tokens := ts2, userData := some u, userDataPromise := none },
         calls ++ [.profileFetch])

/-- Outcome of a whole `getUserData` call: a resolved profile, a rejection,
or (for a caller that joined an already-pending operation) the identity of
the promise it will share. -/
inductive GetUserDataOutcome where
  | value (u : FronteggUserData) : GetUserDataOutcome
  | failure (e : ClientError) : GetUserDataOutcome
  | joined (p : Nat) : GetUserDataOutcome
deriving Repr, DecidableEq

/-- `getUserData({forceRefresh})` run to completion from a given state:
cached branch, join branch, or start-and-settle of a fresh operation. -/
def getUserDataRun (baseUrl : String) (st : ClientState) (forceRefresh : Bool)
    (o : Oracle) (now : Int) :
    GetUserDataOutcome × ClientState × List NetCall :=
  match cachedReturn st forceRefresh now with
  | some u => (.value u, st, [])
  | none =>
    match st.userDataPromise with
    | some p => (.joined p, st, [])
    | none =>
      let st1 := { st with userDataPromise := some st.nextPromiseId
                           nextPromiseId := st.nextPromiseId + 1 }
      match runUserDataPromise baseUrl st1 forceRefresh o now with
      | (.ok u, st2, calls) => (.value u, st2, calls)
      | (.error e, st2, calls) => (.failure e, st2, calls)

/-- `getOAuthLoginUrl()`, with the externally provided primitives passed as
parameters: the PKCE verifier obtained from the store, the SHA-256 digest
function (returning the digest bytes), and the generated nonce. -/
def getOAuthLoginUrl (c : ClientConfig) (codeVerifier : String)
    (sha256 : String → List Nat) (nonce : String) : Url :=
  let digest := sha256 codeVerifier
  let hashedVerifier := base64UrlOfBytes digest
  let loginUrl := urlOfString (c.baseUrl ++ "/frontegg/oauth/authorize")
  let loginUrl := loginUrl.setParam ("client_id") c.clientId
  let loginUrl := loginUrl.setParam ("redirect_uri") c.redirectUri
  let loginUrl := loginUrl.setParam ("response_type") ("code")
  let loginUrl := loginUrl.setParam ("scope") ("openid profile email")
  let loginUrl := loginUrl.setParam ("code_challenge") hashedVerifier
  let loginUrl := loginUrl.setParam ("code_challenge_method") ("S256")
  let loginUrl := loginUrl.setParam ("nonce") nonce
  loginUrl

/-- `getOAuthLogoutUrl()`: pure URL construction followed by
`toString()`. -/
def getOAuthLogoutUrl (c : ClientConfig) : String :=
  let url := urlOfString (c.baseUrl ++ "/frontegg/oauth/logout")
  let url := url.setParam ("post_logout_redirect_uri") c.logoutRedirectUri
  url.render

/-- Canonical JSON encoding of a token-exchange response payload. -/
def tokenResponseJson (d : GetFronteggTokenResponse) : JsonValue :=
  jsonObj
    [("token_type", .str d.token_type), ("access_token", .str d.access_token),
     ("id_token", .str d.id_token), ("refresh_token", .str d.refresh_token),
     ("expires_in", .num d.expires_in)]

/-- The empty 401 response Frontegg sends to unauthenticated exchanges
(`new HttpResponse(null, { status: 401 })` in the repository's tests):
`text()` resolves to the empty string, `json()` rejects, no trace header. -/
def empty401 : HttpResponse :=
  { status := 401, textBody := some "", jsonBody := none, fronteggTraceId := none }

/-- An inert response for oracle slots that a scenario never consults. -/
def unusedResponse : HttpResponse :=
  { status := 204, textBody := some "", jsonBody := none, fronteggTraceId := none }

/-- An oracle for scenarios in which no network call is expected. -/
def unusedOracle : Oracle :=
  { silentResponse := unusedResponse, refreshResponse := unusedResponse,
    profileResponse := unusedResponse }

/-- A sample cached profile for concrete scenarios. -/
def sampleUser : FronteggUserData :=
  { externalUserId := "test-user-id", accessToken := "test-access-token",
    name := "dummy username", email := "test@lokalise.com",
    profilePictureUrl := some (some "https://www.gravatar.com/avatar/0"),
    externalWorkspaceId := "test-tenant-id" }

/-- A client holding a fresh cached profile: the recorded expiration time
(100000000 ms) is far beyond the one-hour margin at `now = 0`. -/
def freshClient : ClientState :=
  { userData := some sampleUser
    tokens := { accessToken := some "test-access-token", refreshToken := none,
                tokenExpirationTime := some 100000000 }
    userDataPromise := none
    nextPromiseId := 0 }

/-- `freshClient` immediately after `getUserData({forceRefresh: true})`
installed its pending operation (promise id 0). -/
def freshClientPending : ClientState :=
  (getUserDataCall freshClient true 0).2

/-- A brand-new client with no restored session. -/
def emptyClient : ClientState :=
  { userData := none
    tokens := { accessToken := none, refreshToken := none, tokenExpirationTime := none }
    userDataPromise := none
    nextPromiseId := 0 }

/-- A sample provider token payload. -/
def sampleTokenResponse : GetFronteggTokenResponse :=
  { token_type := "Bearer", access_token := "new-access-token",
    id_token := "new-id-token", refresh_token := "new-refresh-token",
    expires_in := 3600 }

/-- A 200 response carrying the canonical encoding of
`sampleTokenResponse`. -/
def tokenOkResponse : HttpResponse :=
  { status := 200, textBody := some "", fronteggTraceId := none,
    jsonBody := some (tokenResponseJson sampleTokenResponse) }

/-- Oracle in which the silent exchange succeeds with
`sampleTokenResponse` but the profile fetch is rejected with an empty
401. -/
def exchangeOkProfile401 : Oracle :=
  { silentResponse := tokenOkResponse
    refreshResponse := unusedResponse
    profileResponse := empty401 }

/-- Oracle in which the silent exchange itself is rejected with an empty
401. -/
def exchange401 : Oracle :=
  { silentResponse := empty401, refreshResponse := unusedResponse,
    profileResponse := unusedResponse }

/-- The `FronteggError` produced by an empty 401 on the silent-exchange
endpoint of `https://app.example`. -/
def silent401Error : ClientError :=
  .frontegg
    { text := defaultMessage, status := 401,
      url := "https://app.example/frontegg/oauth/authorize/silent",
      fronteggTraceId := "undefined", body := .str defaultMessage }

/-- EXPIRED_NO_REFRESH: a cached access token whose recorded expiration is
long past, and no refresh token. -/
def expiredNoRefreshTokens : TokenState :=
  { accessToken := some "stale-access-token", refreshToken := none,
    tokenExpirationTime := some 1 }

/-- The configuration used by the repository's own tests. -/
def testConfig : ClientConfig :=
  { baseUrl := "http://frontegg-test-instance.local", clientId := "test-client-id",
    redirectUri := "http://localhost:3000/oauth/callback",
    logoutRedirectUri := "http://localhost:3000",
    userData := none, refreshToken := none, tokenExpirationTime := none }

/-- A schema-invalid token payload containing no token field names. -/
def invalidTokenJson : JsonValue := jsonObj [("foo", .str "bar")]

/-- A 200 response whose body is `invalidTokenJson`. -/
def invalidTokenResponse : HttpResponse :=
  { status := 200, textBody := some "", jsonBody := some invalidTokenJson,
    fronteggTraceId := none }

/-- A restored-session configuration exercising every optional field of the
constructor with the falsy values `""` and `0`. -/
def restoredConfig : ClientConfig :=
  { baseUrl := "https://app.example", clientId := "cid",
    redirectUri := "https://app.example/cb", logoutRedirectUri := "https://app.example/out",
    userData := some sampleUser, refreshToken := some "",
    tokenExpirationTime := some 0 }

/-- C4 (counterexample): at the exact boundary instant
`now = expirationTime - 1 hour` the code does not consider the token
expired, contradicting the claimed `now >= expirationTime - 3600000`
policy: with `expirationTime = 3600000` and `now = 0` the margin instant is
reached, yet `isTokenExpired` returns `false`. -/
theorem isTokenExpired_boundary_cex :
    (0 : Int) = 3600000 - 60 * 60 * 1000 ∧
    isTokenExpired (some 3600000) 0 = false := by decide

/-- C4 (amended): a recorded expiration time `t ≠ 0` counts as expired
exactly when `now` is strictly past `t - 1 hour` — at the boundary instant
itself the token does not yet count as expired — while a missing expiration
time, and the recorded value `0` (falsy in JavaScript), always count as
expired. -/
theorem isTokenExpired_policy (t now : Int) (h : t ≠ 0) :
    (isTokenExpired (some t) now = true ↔ t - 60 * 60 * 1000 < now) ∧
    isTokenExpired (some t) (t - 60 * 60 * 1000) = false ∧
    isTokenExpired none now = true ∧
    isTokenExpired (some 0) now = true := by
  refine ⟨?_, ?_, rfl, rfl⟩ <;> simp [isTokenExpired, h]

/-- C4 (witness): the amended policy evaluated at `t = 7200000`: the
boundary instant is not yet expired. -/
theorem isTokenExpired_policy_witness :
    isTokenExpired (some 7200000) (7200000 - 60 * 60 * 1000) = false :=
  (isTokenExpired_policy 7200000 0 (by decide)).2.1

/-- C3 (counterexample): in EXPIRED_NO_REFRESH (cached access token,
recorded expiration `1` which is long past at `now = 1000000000`, no
refresh token) `getAccessToken` performs no silent-cookie exchange — no
network call at all — and resolves with the expired cached token. -/
theorem getAccessToken_expiredNoRefresh_cex :
    isTokenExpired expiredNoRefreshTokens.tokenExpirationTime 1000000000 = true ∧
    getAccessToken ("https://app.example") expiredNoRefreshTokens false unusedOracle
        1000000000 =
      (.ok ("stale-access-token"), expiredNoRefreshTokens, []) := by decide

/-- C3 (amended): with a truthy cached access token, no truthy refresh
token, and an expired recorded expiration time, `getAccessToken` performs
no exchange: it returns the expired cached token with the token state
untouched and no network calls; the silent-cookie exchange only runs when
no access token is cached. -/
theorem getAccessToken_expiredNoRefresh (baseUrl : String) (ts : TokenState)
    (o : Oracle) (now : Int) (a : String)
    (ha : ts.accessToken = some a) (hne : a ≠ "")
    (hr : strTruthy ts.refreshToken = false)
    (_hexp : isTokenExpired ts.tokenExpirationTime now = true) :
    getAccessToken baseUrl ts false o now = (.ok a, ts, []) := by
  have h1 : strTruthy (some a) = true := by
    unfold strTruthy; simp [hne]
  simp [getAccessToken, ha, h1, hr]

/-- C3 (witness): the amended statement at the concrete
EXPIRED_NO_REFRESH state. -/
theorem getAccessToken_expiredNoRefresh_witness :
    getAccessToken ("https://app.example") expiredNoRefreshTokens false unusedOracle
        1000000000 =
      (.ok ("stale-access-token"), expiredNoRefreshTokens, []) :=
  getAccessToken_expiredNoRefresh ("https://app.example") expiredNoRefreshTokens
    unusedOracle 1000000000 ("stale-access-token") rfl (by decide) (by decide) (by decide)

/-- C5: with a resolved profile, an unexpired token, and `forceRefresh`
false, `getUserData` returns the cached profile synchronously: no network
call is made and the whole client state (token fields, profile, in-flight
guard) is returned unchanged. -/
theorem getUserData_cached (baseUrl : String) (st : ClientState) (o : Oracle)
    (now : Int) (u : FronteggUserData)
    (hu : st.userData = some u)
    (hexp : isTokenExpired st.tokens.tokenExpirationTime now = false) :
    getUserDataRun baseUrl st false o now = (.value u, st, []) := by
  simp [getUserDataRun, cachedReturn, hu, hexp]

/-- C5 (witness): the cached branch at the concrete fresh client. -/
theorem getUserData_cached_witness :
    getUserDataRun ("https://app.example") freshClient false unusedOracle 0 =
      (.value sampleUser, freshClient, []) :=
  getUserData_cached ("https://app.example") freshClient unusedOracle 0 sampleUser rfl
    (by decide)

/-- C10: the constructor seeds the access token exclusively from
`config.userData.accessToken`, and the falsy configuration values `0` for
`tokenExpirationTime` and `""` for `refreshToken` leave the corresponding
internal fields `null`; in particular a session restored with
`tokenExpirationTime 0` has no recorded expiration and is immediately
treated as expired. -/
theorem init_config (config : ClientConfig) (u : FronteggUserData) (now : Int) :
    (config.userData = some u →
      (FronteggOAuthClient.init config).tokens.accessToken = some u.accessToken ∧
      (FronteggOAuthClient.init config).userData = some u) ∧
    (config.tokenExpirationTime = some 0 →
      (FronteggOAuthClient.init config).tokens.tokenExpirationTime = none ∧
      isTokenExpired (FronteggOAuthClient.init config).tokens.tokenExpirationTime now
        = true) ∧
    (config.refreshToken = some "" →
      (FronteggOAuthClient.init config).tokens.refreshToken = none) := by
  refine ⟨fun h => ?_, fun h => ?_, fun h => ?_⟩ <;>
    simp [FronteggOAuthClient.init, h, isTokenExpired]

/-- C10 (witness): the constructor contract at `restoredConfig`. -/
theorem init_config_witness :
    (FronteggOAuthClient.init restoredConfig).tokens.accessToken
        = some sampleUser.accessToken ∧
    (FronteggOAuthClient.init restoredConfig).tokens.tokenExpirationTime = none ∧
    isTokenExpired (FronteggOAuthClient.init restoredConfig).tokens.tokenExpirationTime 5
        = true ∧
    (FronteggOAuthClient.init restoredConfig).tokens.refreshToken = none :=
  ⟨((init_config restoredConfig sampleUser 5).1 rfl).1,
   ((init_config restoredConfig sampleUser 5).2.1 rfl).1,
   ((init_config restoredConfig sampleUser 5).2.1 rfl).2,
   (init_config restoredConfig sampleUser 5).2.2 rfl⟩

/-- On every failure path `fetchAccessTokenByCookie` leaves the token
state unchanged (the mutations sit after the schema validation). -/
theorem fetchAccessTokenByCookie_error_state (baseUrl : String) (ts : TokenState)
    (r : HttpResponse) (now : Int) :
    ∀ e, (fetchAccessTokenByCookie baseUrl ts r now).1 = .error e →
      (fetchAccessTokenByCookie baseUrl ts r now).2 = ts := by
  intro e
  unfold fetchAccessTokenByCookie
  repeat' split
  all_goals intro h
  all_goals first | rfl | simp at h

/-- On every failure path `fetchAccessTokenByOAuthRefreshToken` leaves the
token state unchanged. -/
theorem fetchAccessTokenByOAuthRefreshToken_error_state (baseUrl : String)
    (ts : TokenState) (r : HttpResponse) (now : Int) :
    ∀ e, (fetchAccessTokenByOAuthRefreshToken baseUrl ts r now).1 = .error e →
      (fetchAccessTokenByOAuthRefreshToken baseUrl ts r now).2 = ts := by
  intro e
  unfold fetchAccessTokenByOAuthRefreshToken
  repeat' split
  all_goals intro h
  all_goals first | rfl | simp at h

/-- When `getAccessToken` fails, it has not modified the token state. -/
theorem getAccessToken_error_state (baseUrl : String) (ts : TokenState)
    (forceRefresh : Bool) (o : Oracle) (now : Int) :
    ∀ e, (getAccessToken baseUrl ts forceRefresh o now).1 = .error e →
      (getAccessToken baseUrl ts forceRefresh o now).2.1 = ts := by
  intro e
  unfold getAccessToken
  split
  · rcases hfc : fetchAccessTokenByCookie baseUrl ts o.silentResponse now with ⟨res, ts2⟩
    intro h
    have hlem := fetchAccessTokenByCookie_error_state baseUrl ts o.silentResponse now e
    rw [hfc] at hlem
    exact hlem h
  · split
    · rcases hfr : fetchAccessTokenByOAuthRefreshToken baseUrl ts o.refreshResponse now
        with ⟨res, ts2⟩
      intro h
      have hlem := fetchAccessTokenByOAuthRefreshToken_error_state baseUrl ts
        o.refreshResponse now e
      rw [hfr] at hlem
      exact hlem h
    · intro h; simp at h

/-- C1 (counterexample): with a fresh cached profile,
`getUserData({forceRefresh: true})` installs pending operation `0`; while
it is pending, a further call with default options returns the cached
profile synchronously — not the pending operation — because the
cached-return check precedes the promise-slot check. -/
theorem getUserData_single_flight_cex :
    (getUserDataCall freshClient true 0).1 = .pending 0 ∧
    freshClientPending.userDataPromise = some 0 ∧
    (getUserDataCall freshClientPending false 0).1 = .cached sampleUser ∧
    GetUserDataResult.cached sampleUser ≠ .pending 0 := by decide

/-- C1 (amended): while an operation is pending, a further `getUserData`
call that does not satisfy the synchronous cached-return check returns the
very same pending operation — no new token exchange or profile fetch, no
state change — and a call that does satisfy the check returns the cached
profile, equally without touching the slot; a started operation clears the
slot exactly once when it settles, on the success and failure paths alike,
so at most one profile fetch is in flight per instance. -/
theorem getUserData_single_flight (baseUrl : String) (st : ClientState)
    (forceRefresh : Bool) (o : Oracle) (now : Int) (p : Nat) :
    (st.userDataPromise = some p → cachedReturn st forceRefresh now = none →
      getUserDataRun baseUrl st forceRefresh o now = (.joined p, st, [])) ∧
    (∀ u, cachedReturn st forceRefresh now = some u →
      getUserDataRun baseUrl st forceRefresh o now = (.value u, st, [])) ∧
    (runUserDataPromise baseUrl st forceRefresh o now).2.1.userDataPromise = none := by
  refine ⟨fun h1 h2 => ?_, fun u h2 => ?_, ?_⟩
  · simp [getUserDataRun, h1, h2]
  · simp [getUserDataRun, h2]
  · unfold runUserDataPromise
    rcases hga : getAccessToken baseUrl st.tokens forceRefresh o now with ⟨tr, ts2, calls⟩
    cases tr with
    | error e => simp
    | ok tok =>
      rcases hfu : fetchUserData baseUrl tok o.profileResponse with e1 | u1 <;> simp [hfu]

/-- C1 (witness): at the concrete pending client, a forced second caller
joins pending operation `0` with no state change and no network calls, and
the settled operation leaves the slot cleared. -/
theorem getUserData_single_flight_witness :
    getUserDataRun ("https://app.example") freshClientPending true unusedOracle 0 =
      (.joined 0, freshClientPending, []) ∧
    (runUserDataPromise ("https://app.example") freshClientPending true unusedOracle
        0).2.1.userDataPromise = none :=
  ⟨(getUserData_single_flight ("https://app.example") freshClientPending true
      unusedOracle 0 0).1 (by decide) (by decide),
   (getUserData_single_flight ("https://app.example") freshClientPending true
      unusedOracle 0 0).2.2⟩

/-- C2 (counterexample): starting from a clean client, the silent exchange
succeeds (storing all three token fields) and the subsequent profile fetch
fails with an empty 401: the overall `getUserData` operation fails, yet the
token state differs from the pre-call state — a partial update. -/
theorem getUserData_failure_cex :
    (runUserDataPromise ("https://app.example") emptyClient false exchangeOkProfile401
        0).1 =
      .error (.frontegg
        { text := defaultMessage, status := 401,
          url := "https://app.example/frontegg/identity/resources/users/v2/me",
          fronteggTraceId := "undefined", body := .str defaultMessage }) ∧
    (runUserDataPromise ("https://app.example") emptyClient false exchangeOkProfile401
        0).2.1.tokens =
      { accessToken := some "new-access-token",
        refreshToken := some "new-refresh-token",
        tokenExpirationTime := some 3600000 } ∧
    emptyClient.tokens.accessToken = none := by decide

/-- C2 (amended): when a `getUserData` operation fails, the cached profile
is exactly what it was before the call and the in-flight guard is cleared
so a later call can retry; the token fields are unchanged whenever the
failure happened in the token-resolution step itself — if the token
exchange succeeded and only the profile fetch failed, the freshly stored
tokens remain. -/
theorem getUserData_failure_state (baseUrl : String) (st : ClientState)
    (forceRefresh : Bool) (o : Oracle) (now : Int) (e : ClientError)
    (h : (runUserDataPromise baseUrl st forceRefresh o now).1 = .error e) :
    (runUserDataPromise baseUrl st forceRefresh o now).2.1.userData = st.userData ∧
    (runUserDataPromise baseUrl st forceRefresh o now).2.1.userDataPromise = none ∧
    (∀ e2, (getAccessToken baseUrl st.tokens forceRefresh o now).1 = .error e2 →
      (runUserDataPromise baseUrl st forceRefresh o now).2.1.tokens = st.tokens) := by
  unfold runUserDataPromise at h ⊢
  rcases hga : getAccessToken baseUrl st.tokens forceRefresh o now with ⟨tr, ts2, calls⟩
  rw [hga] at h
  have hstate := getAccessToken_error_state baseUrl st.tokens forceRefresh o now
  rw [hga] at hstate
  dsimp only at h ⊢
  cases tr with
  | error e0 =>
    refine ⟨rfl, rfl, fun e2 h2 => ?_⟩
    exact hstate e2 h2
  | ok tok =>
    dsimp only at h ⊢
    rcases hfu : fetchUserData baseUrl tok o.profileResponse with e1 | u1
    · rw [hfu] at h
      dsimp only at h ⊢
      refine ⟨rfl, rfl, fun e2 h2 => ?_⟩
      simp at h2
    · rw [hfu] at h
      simp at h

/-- C2 (witness): the amended statement at a clean client whose silent
exchange is rejected with an empty 401 — profile, guard, and token state
all preserved. -/
theorem getUserData_failure_state_witness :
    (runUserDataPromise ("https://app.example") emptyClient false exchange401
        0).2.1.userData = emptyClient.userData ∧
    (runUserDataPromise ("https://app.example") emptyClient false exchange401
        0).2.1.userDataPromise = none ∧
    (runUserDataPromise ("https://app.example") emptyClient false exchange401
        0).2.1.tokens = emptyClient.tokens :=
  ⟨(getUserData_failure_state ("https://app.example") emptyClient false exchange401 0
      silent401Error (by decide)).1,
   (getUserData_failure_state ("https://app.example") emptyClient false exchange401 0
      silent401Error (by decide)).2.1,
   (getUserData_failure_state ("https://app.example") emptyClient false exchange401 0
      silent401Error (by decide)).2.2 silent401Error (by decide)⟩

/-- The canonical token payload validates back to its record. -/
theorem parseTokenResponse_tokenResponseJson (d : GetFronteggTokenResponse) :
    parseTokenResponse (tokenResponseJson d) = some d := rfl

/-- C6: on a 200 response with a schema-valid token payload, both public
OAuth exchange functions return the provider's `access_token` and store the
access token, the refresh token, and the computed expiration time
`now + expires_in * 1000`; on an empty 401 response both raise the
structured `FronteggError` carrying status 401 (default message as text
and body, the token endpoint URL, and the absent trace header rendered as
"undefined"), leaving the token state unchanged. -/
theorem fetchAccessTokenByOAuth_contract (baseUrl : String) (ts : TokenState)
    (now : Int) (d : GetFronteggTokenResponse) (j : JsonValue) (r : HttpResponse)
    (hst : r.status = 200) (hj : r.jsonBody = some j)
    (hparse : parseTokenResponse j = some d) :
    fetchAccessTokenByOAuthCode baseUrl ts r now =
      (.ok d.access_token,
       { accessToken := some d.access_token, refreshToken := some d.refresh_token,
         tokenExpirationTime := some (now + d.expires_in * 1000) }) ∧
    fetchAccessTokenByOAuthRefreshToken baseUrl ts r now =
      (.ok d.access_token,
       { accessToken := some d.access_token, refreshToken := some d.refresh_token,
         tokenExpirationTime := some (now + d.expires_in * 1000) }) ∧
    fetchAccessTokenByOAuthCode baseUrl ts empty401 now =
      (.error (.frontegg
        { text := defaultMessage, status := 401,
          url := baseUrl ++ "/frontegg/oauth/token",
          fronteggTraceId := "undefined", body := .str defaultMessage }), ts) ∧
    fetchAccessTokenByOAuthRefreshToken baseUrl ts empty401 now =
      (.error (.frontegg
        { text := defaultMessage, status := 401,
          url := baseUrl ++ "/frontegg/oauth/token",
          fronteggTraceId := "undefined", body := .str defaultMessage }), ts) := by
  have hok : r.ok = true := by simp [HttpResponse.ok, hst]
  refine ⟨?_, ?_, rfl, rfl⟩ <;>
    simp [fetchAccessTokenByOAuthCode, fetchAccessTokenByOAuthRefreshToken,
      fetchWithAssert, hok, hj, hparse, calculateTokenExpirationTime]

/-- C6 (witness): the exchange contract at the sample payload and the
empty 401. -/
theorem fetchAccessTokenByOAuth_contract_witness :
    fetchAccessTokenByOAuthCode ("https://app.example") expiredNoRefreshTokens
        tokenOkResponse 0 =
      (.ok ("new-access-token"),
       { accessToken := some "new-access-token",
         refreshToken := some "new-refresh-token",
         tokenExpirationTime := some 3600000 }) ∧
    fetchAccessTokenByOAuthRefreshToken ("https://app.example") expiredNoRefreshTokens
        empty401 0 =
      (.error (.frontegg
        { text := defaultMessage, status := 401,
          url := "https://app.example/frontegg/oauth/token",
          fronteggTraceId := "undefined", body := .str defaultMessage }),
       expiredNoRefreshTokens) :=
  ⟨(fetchAccessTokenByOAuth_contract ("https://app.example") expiredNoRefreshTokens 0
      sampleTokenResponse (tokenResponseJson sampleTokenResponse) tokenOkResponse
      rfl rfl rfl).1,
   (fetchAccessTokenByOAuth_contract ("https://app.example") expiredNoRefreshTokens 0
      sampleTokenResponse (tokenResponseJson sampleTokenResponse) tokenOkResponse
      rfl rfl rfl).2.2.2⟩

/-- C7 (counterexample): the logout URL keeps the `/frontegg` mount in the
path: for the repository's test configuration the result is
`{baseUrl}/frontegg/oauth/logout?...` and differs from the claimed exact
string `{baseUrl}/oauth/logout?post_logout_redirect_uri=<encoded>`. -/
theorem getOAuthLogoutUrl_cex :
    getOAuthLogoutUrl testConfig =
      "http://frontegg-test-instance.local/frontegg/oauth/logout?post_logout_redirect_uri=http%3A%2F%2Flocalhost%3A3000" ∧
    getOAuthLogoutUrl testConfig ≠
      testConfig.baseUrl ++ "/oauth/logout?post_logout_redirect_uri="
        ++ formEncode testConfig.logoutRedirectUri := by decide

/-- C7 (amended): `getOAuthLogoutUrl` is a pure function of the
configuration and returns exactly
`{baseUrl}/frontegg/oauth/logout?post_logout_redirect_uri=<e>` where `<e>`
is the form-url-encoded configured logout redirect URI. -/
theorem getOAuthLogoutUrl_exact (c : ClientConfig) :
    getOAuthLogoutUrl c =
      c.baseUrl ++ "/frontegg/oauth/logout" ++ "?" ++
        ("post_logout_redirect_uri" ++ "=" ++ formEncode c.logoutRedirectUri) := by
  have hkey : formEncode ("post_logout_redirect_uri") = "post_logout_redirect_uri" := by
    decide
  show c.baseUrl ++ "/frontegg/oauth/logout" ++ "?" ++
      (formEncode ("post_logout_redirect_uri") ++ "=" ++ formEncode c.logoutRedirectUri)
    = _
  rw [hkey]

/-- C8: when the silent exchange receives an HTTP-success response whose
body fails schema validation, the raised status-500 diagnostic error embeds
the raw response in its body exactly when the serialized response contains
none of the token field names `access_token`, `id_token`, `refresh_token`;
otherwise the response slot of the body holds the redaction notice.  The
token state is unchanged. -/
theorem fetchAccessTokenByCookie_redaction (baseUrl : String) (ts : TokenState)
    (r : HttpResponse) (now : Int) (json : JsonValue)
    (hok : r.ok = true) (hj : r.jsonBody = some json)
    (hparse : parseTokenResponse json = none) :
    fetchAccessTokenByCookie baseUrl ts r now =
      (.error (.frontegg
        { text := "Error while parsing Frontegg response.", status := 500,
          url := baseUrl ++ "/frontegg/oauth/authorize/silent",
          fronteggTraceId := r.fronteggTraceId.getD ("undefined"),
          body := jsonObj
            [("response",
              if tokenKeyLeak json
              then .str "Response body contains sensitive information."
              else json),
             ("error", .str "ZodError")] }), ts) ∧
    (tokenKeyLeak json = false ↔
      containsSubstr (jsonStringify json) ("access_token") = false ∧
      containsSubstr (jsonStringify json) ("id_token") = false ∧
      containsSubstr (jsonStringify json) ("refresh_token") = false) ∧
    ((if tokenKeyLeak json
        then JsonValue.str "Response body contains sensitive information."
        else json) = json
      ↔ tokenKeyLeak json = false) := by
  refine ⟨?_, ?_, ?_⟩
  · cases hL : tokenKeyLeak json <;>
      simp [fetchAccessTokenByCookie, fetchWithAssert, hok, hj, hparse, hL]
  · simp [tokenKeyLeak]
  · cases hL : tokenKeyLeak json
    · simp
    · refine ⟨fun heq => ?_, fun hf => by simp at hf⟩
      rw [if_pos (by trivial)] at heq
      rw [← heq] at hL
      exact absurd hL (by decide)

/-- C8 (witness): a 200 response with a schema-invalid body free of token
field names — the raw response is embedded, the token state untouched. -/
theorem fetchAccessTokenByCookie_redaction_witness :
    fetchAccessTokenByCookie ("https://app.example") expiredNoRefreshTokens
        invalidTokenResponse 0 =
      (.error (.frontegg
        { text := "Error while parsing Frontegg response.", status := 500,
          url := "https://app.example/frontegg/oauth/authorize/silent",
          fronteggTraceId := "undefined",
          body := jsonObj
            [("response", invalidTokenJson), ("error", .str "ZodError")] }),
       expiredNoRefreshTokens) :=
  (fetchAccessTokenByCookie_redaction ("https://app.example") expiredNoRefreshTokens
    invalidTokenResponse 0 invalidTokenJson rfl rfl rfl).1

/-- C9: the login URL carries exactly the seven query parameters, in this
order: the configured client id and redirect URI, `response_type=code`,
`scope=openid profile email`, the code challenge — the base64url (padding
stripped, `+` replaced by `-`, `/` by `_`) encoding of the SHA-256 digest
of the PKCE verifier obtained from the store — `code_challenge_method=S256`,
and the generated nonce. -/
theorem getOAuthLoginUrl_params (c : ClientConfig) (codeVerifier : String)
    (sha256 : String → List Nat) (nonce : String) :
    getOAuthLoginUrl c codeVerifier sha256 nonce =
      { base := c.baseUrl ++ "/frontegg/oauth/authorize"
        params := [("client_id", c.clientId), ("redirect_uri", c.redirectUri),
          ("response_type", "code"), ("scope", "openid profile email"),
          ("code_challenge", base64UrlOfBytes (sha256 codeVerifier)),
          ("code_challenge_method", "S256"), ("nonce", nonce)] } := by
  rfl

end Frontegg
